import Mathlib

/-!
Verification of the travel-insurance booking backend (Assistcard proxy).

Shallow embedding of the TypeScript source under `src/api/src` (plus the
quotes feature whose file names were lost).  JavaScript numbers only ever
flow through these functions unchanged (amounts are copied, never computed
with), so they are modelled as `Int`; timestamps are milliseconds since the
epoch as in JS `Date.getTime()`; database `Date` columns store the converted
ISO day string; Prisma's uuid primary keys are modelled by a `Nat` counter.
External effects (fetch, Prisma writes) are injected as explicit outcome
parameters so that the control flow of the source is the only thing the
definitions add.
-/

/-- A structured log record emitted through pino (`logger.<level>(fields, msg)`).
Only the level and the message template are needed by the claims. -/
structure LogEntry where
  level : String
  message : String
deriving DecidableEq

/-- JavaScript `x || fallback` on an optional string field: `undefined` and
the empty string are falsy. -/
def firstTruthy (x : Option String) (fallback : String) : String :=
  match x with
  | some s => if s = "" then fallback else s
  | none => fallback

/-- Date conversion used throughout the services:
`"YYYY/MM/DD".replace(/\x5c\x2f/g, '-')` before `new Date(...)`. -/
def toDbDate (s : String) : String :=
  String.mk (s.toList.map fun c => if c == '/' then '-' else c)

-- ========== External Token Manager (assistcard/auth/token-manager.ts) ==========

/-- In-memory token cache entry (`TokenCache` in token-manager.ts):
bearer token, adjusted expiry instant, optional refresh session cookie. -/
structure TokenCache where
  token : String
  expiresAt : Int
  refreshCookie : Option String
deriving DecidableEq

/-- Payload of a successful refresh response: the new bearer token and the
provider-stated expiration instant (before the safety margin is applied). -/
structure AuthData where
  token : String
  expiration : Int
deriving DecidableEq

/-- Payload of a successful login response: token, provider-stated
expiration, and the refresh cookie extracted from the Set-Cookie header. -/
structure LoginData where
  token : String
  expiration : Int
  refreshCookie : Option String
deriving DecidableEq

/-- The 5-minute safety margin (`5 * 60 * 1000` ms) subtracted from the
provider's stated expiration at cache-write time. -/
def safetyMarginMs : Int := 5 * 60 * 1000

/-- Cache entry written by `assistcardLogin` (token-manager.ts lines 159-180):
`safeExpiresAt = expiration - 5 minutes`, cookie taken from the response. -/
def loginCacheEntry (l : LoginData) : TokenCache :=
  { token := l.token, expiresAt := l.expiration - safetyMarginMs,
    refreshCookie := l.refreshCookie }

/-- Cache entry written after a successful `assistcardRefreshToken`
(token-manager.ts lines 69-75): new token, adjusted expiry, same cookie. -/
def refreshCacheEntry (d : AuthData) (cookie : String) : TokenCache :=
  { token := d.token, expiresAt := d.expiration - safetyMarginMs,
    refreshCookie := some cookie }

/-- The provider-stated expiration of a cached token: every cache write stores
`expiration - safetyMarginMs`, so the stated expiry is recovered by adding
the margin back. -/
def providerExpiryOfCache (c : TokenCache) : Int :=
  c.expiresAt + safetyMarginMs

/-- `getValidToken` (token-manager.ts lines 50-96).  The fetch outcomes are
injected: `refreshResp = none` models any refresh failure (network error,
rejected response), `loginResp = none` models a failed login.  Returns the
result handed to the caller together with the cache state left behind.
Paths, exactly as in the source: mock short-circuit; cache hit when
`expiresAt > now`; stale + cookie tries refresh, clearing the cache and
falling back to a full login when the refresh fails; stale without cookie
and empty cache go straight to login; a failed login raises
`InternalServerError` (the cache was already cleared only on the
refresh-failure path). -/
def getValidToken (useMock : Bool) (now : Int) (cache : Option TokenCache)
    (refreshResp : Option AuthData) (loginResp : Option LoginData) :
    Except String String × Option TokenCache :=
  if useMock then (Except.ok ("mock-assistcard-token"), cache)
  else
    match cache with
    | some c =>
      if now < c.expiresAt then (Except.ok c.token, some c)
      else
        match c.refreshCookie with
        | some cookie =>
          match refreshResp with
          | some d => (Except.ok d.token, some (refreshCacheEntry d cookie))
          | none =>
            match loginResp with
            | some l => (Except.ok l.token, some (loginCacheEntry l))
            | none => (Except.error ("Assistcard authentication failed"), none)
        | none =>
          match loginResp with
          | some l => (Except.ok l.token, some (loginCacheEntry l))
          | none => (Except.error ("Assistcard authentication failed"), some c)
    | none =>
      match loginResp with
      | some l => (Except.ok l.token, some (loginCacheEntry l))
      | none => (Except.error ("Assistcard authentication failed"), none)

-- ========== Assistcard error translation (products/products.errors.ts) ==========

/-- Provider error envelope (`assistcardErrorSchema`, products.schema.ts lines
172-182; the `.passthrough()` keeps a provider-sent `status` on the issuance
path too): trace id, optional machine code, optional human message, optional
HTTP status, optional problem-details title. -/
structure AssistcardError where
  title : Option String
  status : Option Nat
  traceId : String
  errorCode : Option String
  errorMessage : Option String
deriving DecidableEq

/-- The local typed error (`AssistcardApiError`): message, same trace id and
error code as the envelope, plus a mapped HTTP-style status code. -/
structure AssistcardApiError where
  message : String
  traceId : String
  errorCode : Option String
  statusCode : Nat
deriving DecidableEq

/-- `mapAssistcardStatusCode` (products.errors.ts lines 44-69).  The JS guard
`if (!assistcardStatus) return 502` is falsy for both `undefined` and `0`. -/
def mapAssistcardStatusCode (s? : Option Nat) : Nat :=
  match s? with
  | none => 502
  | some s =>
    if s = 0 then 502
    else if s = 400 then 400
    else if s = 401 then 502
    else if s = 403 then 502
    else if s = 404 then 404
    else if s = 422 then 400
    else if s = 429 then 503
    else if s = 500 ∨ s = 502 ∨ s = 503 ∨ s = 504 then 502
    else 502

/-- `createAssistcardApiError` (products.errors.ts lines 33-39):
`message = errorMessage || title || 'Unknown Assistcard API error'`,
trace id and error code copied, status mapped. -/
def createAssistcardApiError (e : AssistcardError) : AssistcardApiError :=
  { message := firstTruthy e.errorMessage
      (firstTruthy e.title ("Unknown Assistcard API error")),
    traceId := e.traceId,
    errorCode := e.errorCode,
    statusCode := mapAssistcardStatusCode e.status }

-- ========== Issue request data model (assistcard/issue/issue.schema.ts) ==========

/-- `passengerAddressDataSchema`. -/
structure PassengerAddressData where
  countryCode : String
  streetName : String
  streetNumber : String
  postalCode : String
  city : String
  state : String
  complements : Option String
deriving DecidableEq

/-- `passengerAddonSchema`. -/
structure PassengerAddon where
  code : String
  rateCode : String
  category : Nat
deriving DecidableEq

/-- `issuePassengerSchema`. -/
structure IssuePassenger where
  countryCode : String
  documentType : Nat
  documentNumber : String
  birthDate : String
  lastname : String
  name : String
  email : String
  phone : String
  preferredSurname : Option String
  preferredName : Option String
  bookingCode : Option String
  addressData : PassengerAddressData
  addons : Option (List PassengerAddon)
deriving DecidableEq

/-- `paymentDetailsSchema` request block (tokenized card data). -/
structure PaymentDetails where
  currency : Option String
  amount : Int
  installments : Nat
  cardNumber : String
  cardHolder : String
  expirationDate : String
  cvv : String
  documentNumber : String
  brand : String
  email : String
  phone : Option String
deriving DecidableEq

/-- `quoteItinerarySchema` (products.schema.ts): literal code plus IATA pair. -/
structure QuoteItinerary where
  code : String
  origin : String
  destination : String
deriving DecidableEq

/-- `quotePriceModifiersSchema`. -/
structure QuotePriceModifiers where
  promotionalCode : Option String
  markup : Option Int
  comissionDiscount : Option Int
deriving DecidableEq

/-- The caller-supplied issuance parameters: `Omit<IssuePolicyRequest,
'countryCode' | 'agencyCode' | 'branchCode'>` (policies.schema.ts extends the
issue request with an optional `quoteId` used for tracking only). -/
structure IssueParams where
  quoteId : Option String
  counterCode : String
  productCode : String
  rateCode : String
  beginDate : String
  endDate : String
  itinerary : QuoteItinerary
  passengers : List IssuePassenger
  priceModifiers : Option QuotePriceModifiers
  paymentDetails : PaymentDetails
deriving DecidableEq

/-- Point Emisor identifiers injected from the environment
(`ASSISTCARD_COUNTRY_CODE`, `ASSISTCARD_AGENCY_CODE`, `ASSISTCARD_BRANCH_CODE`). -/
structure PointEmisor where
  countryCode : String
  agencyCode : String
  branchCode : Nat
deriving DecidableEq

-- ========== Zod validation embedded (the checks of issueVouchersRequestSchema) ==========

/-- One zod issue: the path of the offending field and its message. -/
structure ValidationIssue where
  path : String
  message : String
deriving DecidableEq

/-- `dateStringSchema` regex `^\x5cd\x7b4\x7d\x2f\x5cd\x7b2\x7d\x2f\x5cd\x7b2\x7d$`. -/
def dateFormatOk (s : String) : Bool :=
  match s.toList with
  | [y1, y2, y3, y4, a, m1, m2, b, d1, d2] =>
    y1.isDigit && y2.isDigit && y3.isDigit && y4.isDigit &&
    a == '/' && m1.isDigit && m2.isDigit && b == '/' && d1.isDigit && d2.isDigit
  | _ => false

/-- Uppercase ASCII letter, as in the IATA / country-code regexes. -/
def upperAlpha (c : Char) : Bool :=
  'A' ≤ c && c ≤ 'Z'

/-- `countryCodeSchema`: exactly two uppercase letters. -/
def countryCodeOk (s : String) : Bool :=
  match s.toList with
  | [a, b] => upperAlpha a && upperAlpha b
  | _ => false

/-- `iataCodeSchema`: exactly three uppercase letters. -/
def iataCodeOk (s : String) : Bool :=
  match s.toList with
  | [a, b, c] => upperAlpha a && upperAlpha b && upperAlpha c
  | _ => false

/-- The `expirationDate` regex `^\x5cd\x7b2\x7d\x2f\x5cd\x7b2\x7d$` (MM/YY). -/
def expirationFormatOk (s : String) : Bool :=
  match s.toList with
  | [a, b, c, d, e] => a.isDigit && b.isDigit && c == '/' && d.isDigit && e.isDigit
  | _ => false

/-- Abstraction of zod's `.email()` format check.  No claim depends on its
precision; only the presence of an at-sign is modelled. -/
def emailFormatOk (s : String) : Bool :=
  s.toList.any fun c => c == '@'

/-- The triple-brace tokenization-marker regex
`^\x5c\x7b\x5c\x7b\x5c\x7b.+\x5c\x7d\x5c\x7d\x5c\x7d$` on `cardNumber` and `cvv`:
the string is the three-brace wrapper around a non-empty middle, where `.`
excludes the JS line terminators. -/
def tripleBraceWrapped (s : String) : Bool :=
  match s.toList with
  | '\x7b' :: '\x7b' :: '\x7b' :: rest =>
    let n := rest.length
    3 < n &&
    rest.drop (n - 3) == ['\x7d', '\x7d', '\x7d'] &&
    ((rest.take (n - 3)).all fun c =>
      !(c == '\n' || c == '\r' || c == '\u2028' || c == '\u2029'))
  | _ => false

/-- Issues raised by `paymentDetailsSchema` on the tokenized payment block,
with the zod paths rooted at `paymentDetails`. -/
def validatePaymentDetails (p : PaymentDetails) : List ValidationIssue :=
  (if p.amount ≤ 0 then
     [⟨"paymentDetails.amount", "Number must be greater than 0"⟩] else []) ++
  (if p.installments = 0 then
     [⟨"paymentDetails.installments", "Number must be greater than 0"⟩] else []) ++
  (if tripleBraceWrapped p.cardNumber then [] else
     [⟨"paymentDetails.cardNumber",
       "Card number must be tokenized and wrapped in triple braces: \x7b\x7b\x7btoken\x7d\x7d\x7d"⟩]) ++
  (if p.cardHolder = "" then
     [⟨"paymentDetails.cardHolder", "String must contain at least 1 character"⟩] else []) ++
  (if expirationFormatOk p.expirationDate then [] else
     [⟨"paymentDetails.expirationDate", "Expiration date must be in MM/YY format"⟩]) ++
  (if tripleBraceWrapped p.cvv then [] else
     [⟨"paymentDetails.cvv",
       "CVV must be tokenized and wrapped in triple braces: \x7b\x7b\x7btoken\x7d\x7d\x7d"⟩]) ++
  (if p.documentNumber = "" then
     [⟨"paymentDetails.documentNumber", "String must contain at least 1 character"⟩] else []) ++
  (if p.brand = "" then
     [⟨"paymentDetails.brand", "String must contain at least 1 character"⟩] else []) ++
  (if emailFormatOk p.email then [] else
     [⟨"paymentDetails.email", "Invalid email"⟩])

/-- Issues raised by `issuePassengerSchema` for one passenger. -/
def validateIssuePassenger (p : IssuePassenger) : List ValidationIssue :=
  (if countryCodeOk p.countryCode then [] else
     [⟨"passengers.countryCode", "Country code must be ISO 3166-1 alpha-2"⟩]) ++
  (if p.documentType = 0 then
     [⟨"passengers.documentType", "Number must be greater than 0"⟩] else []) ++
  (if p.documentNumber = "" then
     [⟨"passengers.documentNumber", "String must contain at least 1 character"⟩] else []) ++
  (if dateFormatOk p.birthDate then [] else
     [⟨"passengers.birthDate", "Date must be in YYYY/MM/DD format"⟩]) ++
  (if p.lastname = "" then
     [⟨"passengers.lastname", "String must contain at least 1 character"⟩] else []) ++
  (if p.name = "" then
     [⟨"passengers.name", "String must contain at least 1 character"⟩] else []) ++
  (if emailFormatOk p.email then [] else
     [⟨"passengers.email", "Invalid email"⟩]) ++
  (if p.phone = "" then
     [⟨"passengers.phone", "String must contain at least 1 character"⟩] else []) ++
  (if countryCodeOk p.addressData.countryCode then [] else
     [⟨"passengers.addressData.countryCode", "Country code must be ISO 3166-1 alpha-2"⟩]) ++
  (if p.addressData.streetName = "" then
     [⟨"passengers.addressData.streetName", "String must contain at least 1 character"⟩] else []) ++
  (if p.addressData.streetNumber = "" then
     [⟨"passengers.addressData.streetNumber", "String must contain at least 1 character"⟩] else []) ++
  (if p.addressData.postalCode = "" then
     [⟨"passengers.addressData.postalCode", "String must contain at least 1 character"⟩] else []) ++
  (if p.addressData.city = "" then
     [⟨"passengers.addressData.city", "String must contain at least 1 character"⟩] else []) ++
  (if p.addressData.state = "" then
     [⟨"passengers.addressData.state", "String must contain at least 1 character"⟩] else []) ++
  ((p.addons.getD []).flatMap fun a =>
    if a.category = 0 then
      [⟨"passengers.addons.category", "Number must be greater than 0"⟩] else [])

/-- All issues of `issueVouchersRequestSchema.parse(requestBody)` on the
request with the Point Emisor already injected (issue.service.ts line 79). -/
def validateIssueRequest (pe : PointEmisor) (params : IssueParams) : List ValidationIssue :=
  (if countryCodeOk pe.countryCode then [] else
     [⟨"countryCode", "Country code must be ISO 3166-1 alpha-2"⟩]) ++
  (if pe.agencyCode.length ≤ 5 then [] else
     [⟨"agencyCode", "String must contain at most 5 characters"⟩]) ++
  (if pe.branchCode ≤ 999 then [] else
     [⟨"branchCode", "Number must be less than or equal to 999"⟩]) ++
  (if params.counterCode = "" then
     [⟨"counterCode", "String must contain at least 1 character"⟩] else []) ++
  (if params.productCode = "" then
     [⟨"productCode", "String must contain at least 1 character"⟩] else []) ++
  (if params.rateCode = "" then
     [⟨"rateCode", "String must contain at least 1 character"⟩] else []) ++
  (if dateFormatOk params.beginDate then [] else
     [⟨"beginDate", "Date must be in YYYY/MM/DD format"⟩]) ++
  (if dateFormatOk params.endDate then [] else
     [⟨"endDate", "Date must be in YYYY/MM/DD format"⟩]) ++
  (if params.itinerary.code = "AIRPORT" then [] else
     [⟨"itinerary.code", "Invalid literal value, expected AIRPORT"⟩]) ++
  (if iataCodeOk params.itinerary.origin then [] else
     [⟨"itinerary.origin", "IATA code must be 3 uppercase letters"⟩]) ++
  (if iataCodeOk params.itinerary.destination then [] else
     [⟨"itinerary.destination", "IATA code must be 3 uppercase letters"⟩]) ++
  (if params.passengers.length = 0 then
     [⟨"passengers", "Array must contain at least 1 element"⟩] else []) ++
  (if params.passengers.length ≤ 16 then [] else
     [⟨"passengers", "Array must contain at most 16 elements"⟩]) ++
  (params.passengers.flatMap validateIssuePassenger) ++
  validatePaymentDetails params.paymentDetails

-- ========== Issue response data model (issue.schema.ts response side) ==========

/-- `voucherAddonAmountSchema`: the billed amounts of one addon. -/
structure VoucherAddonAmount where
  code : String
  rateCode : String
  category : Int
  totalOriginal : Int
  total : Int
  subtotalAssistance : Int
  subtotalInsurance : Int
  financialTaxes : Int
  promotionalCode : Option String
deriving DecidableEq

/-- `voucherAmountRateSchema`. -/
structure VoucherAmountRate where
  totalOriginal : Int
  total : Int
  subtotalAssistance : Int
  subtotalInsurance : Int
  financialTaxes : Int
  promotionalCode : Option String
  addons : List VoucherAddonAmount
deriving DecidableEq

/-- `voucherSchema`: one issued voucher, index-aligned with the passengers. -/
structure Voucher where
  code : Nat
  policyCode : Option String
  bookingCode : String
  documentNumber : String
  lastName : String
  name : String
  ekitURL : String
  policyURL : Option String
  productCode : String
  productName : String
  effectiveDateStart : String
  effectiveDateEnd : String
  amountRate : VoucherAmountRate
deriving DecidableEq

/-- `paymentAmountRateSchema`. -/
structure PaymentAmountRate where
  totalOriginal : Int
  total : Int
  processingFee : Int
  financialTaxes : Int
  financialInterest : Int
  taxesIncluded : Int
  noTaxesIncluded : Int
  assistance : Int
  insurance : Int
deriving DecidableEq

/-- `paymentDetailsResponseSchema`: shared payment confirmation metadata. -/
structure PaymentDetailsResponse where
  method : String
  brand : String
  installments : Nat
  referenceNumber : String
  currency : String
  totalPaid : Int
  amountRate : PaymentAmountRate
deriving DecidableEq

/-- `issueVouchersResponseDataSchema`: the success payload. -/
structure IssueVouchersResponseData where
  countryIdentifier : Int
  voucherGroup : Nat
  issuanceDate : String
  exchangeRate : Int
  vouchers : List Voucher
  paymentDetails : PaymentDetailsResponse
deriving DecidableEq

/-- `issueVouchersResponseSchema` (`.passthrough()` keeps a provider `status`
field, which `createAssistcardApiError` then reads). -/
structure IssueVouchersResponse where
  traceId : String
  isSuccess : Bool
  data : Option IssueVouchersResponseData
  errorCode : Option String
  errorMessage : Option String
  status : Option Nat
deriving DecidableEq

/-- Outcome of the `fetch` to `/api/v1/Issuance/credit-card/vouchers`: either a
parsed response envelope, or a thrown network-level error with no response at
all (a malformed response body that fails the response schema surfaces through
the same catch block and is covered by the same constructor's message). -/
inductive NetOutcome where
  | response (r : IssueVouchersResponse)
  | networkError (msg : String)
deriving DecidableEq

/-- Error raised by `issueVouchers` (issue.service.ts): a zod validation
failure of the local request (thrown before the network call), or an
`AssistcardApiError`. -/
inductive IssueCallError where
  | validation (issues : List ValidationIssue)
  | api (e : AssistcardApiError)
deriving DecidableEq

/-- The provider envelope handed to `createAssistcardApiError` on the issuance
path: the spread `\x7b...validatedResponse, isSuccess: false\x7d` keeps trace id,
error code/message and any passed-through `status`; the response schema has no
`title`. -/
def issueErrorEnvelope (r : IssueVouchersResponse) : AssistcardError :=
  { title := none, status := r.status, traceId := r.traceId,
    errorCode := r.errorCode, errorMessage := r.errorMessage }

/-- `issueVouchers` (issue.service.ts lines 60-162): inject the Point Emisor,
validate the complete request (`.parse` throws before `fetch` when any issue
exists), then perform the network call; an unsuccessful envelope is translated
by `createAssistcardApiError`, and a network-level failure becomes an
`AssistcardApiError` with statusCode 503.  The second component records
whether the network call happened. -/
def issueVouchers (pe : PointEmisor) (params : IssueParams) (net : NetOutcome) :
    Except IssueCallError IssueVouchersResponseData × Bool :=
  match validateIssueRequest pe params with
  | issue :: more => (Except.error (IssueCallError.validation (issue :: more)), false)
  | [] =>
    match net with
    | NetOutcome.networkError msg =>
      (Except.error (IssueCallError.api
        { message := "Network error: " ++ msg, traceId := "unknown",
          errorCode := some ("NETWORK_ERROR"), statusCode := 503 }), true)
    | NetOutcome.response r =>
      if r.isSuccess then
        match r.data with
        | some d => (Except.ok d, true)
        | none =>
          (Except.error (IssueCallError.api (createAssistcardApiError (issueErrorEnvelope r))), true)
      else
        (Except.error (IssueCallError.api (createAssistcardApiError (issueErrorEnvelope r))), true)

-- ========== Database rows (prisma models touched by the pipeline) ==========

/-- Flexible JSON value, for the schemaless `passengers` / `selectedAddons`
columns of the Quote table. -/
inductive JsonVal where
  | null
  | bool (b : Bool)
  | num (n : Int)
  | str (s : String)
  | arr (elems : List JsonVal)
  | obj (fields : List (String × JsonVal))

/-- A `Quote` row (quote snapshot). -/
structure QuoteRow where
  id : Nat
  userId : String
  origin : String
  destination : String
  beginDate : String
  endDate : String
  travelType : Int
  passengersCount : Int
  passengers : List JsonVal
  productCode : String
  rateCode : String
  productName : String
  quotedTotal : Int
  quotedCurrency : String
  exchangeRate : Option Int
  processingFee : Option Int
  selectedAddons : Option (List JsonVal)
  promotionalCode : Option String
  status : String
  expiresAt : Int

/-- A `Passenger` row. -/
structure PassengerRow where
  id : Nat
  firstName : String
  lastName : String
  birthDate : String
  email : String
  phone : String
  countryCode : String
  documentType : Nat
  documentNumber : String
  preferredFirstName : Option String
  preferredLastName : Option String
  addressCountryCode : String
  addressStreetName : String
  addressStreetNumber : String
  addressComplements : Option String
  addressPostalCode : String
  addressCity : String
  addressState : String
  createdById : String
deriving DecidableEq

/-- A `Policy` row: one per issued voucher. -/
structure PolicyRow where
  id : Nat
  quoteId : Nat
  userId : String
  passengerId : Nat
  voucherCode : String
  voucherGroup : String
  policyCode : Option String
  ekitUrl : String
  policyUrl : Option String
  productCode : String
  productName : String
  rateCode : String
  beginDate : String
  endDate : String
  totalAmount : Int
  currency : String
  paymentMethod : String
  paymentReference : String
  paymentCurrencyLocal : String
  paymentTotalLocal : Int
  cardBrand : String
  installments : Nat
  exchangeRate : Int
  processingFee : Int
  bookingCode : Option String
  promotionalCode : Option String
  issuedAddons : List VoucherAddonAmount
  status : String
  issuanceDate : String
deriving DecidableEq

/-- The relational store touched by the pipeline, with the uuid generator
modelled as a counter handing out the next fresh id. -/
structure Db where
  quotes : List QuoteRow
  passengers : List PassengerRow
  policies : List PolicyRow
  nextId : Nat

-- ========== Issuance Orchestrator (policies/policies.service.ts) ==========

/-- The `findFirst` filter of the passenger upsert:
`where: \x7b email, documentNumber \x7d`. -/
def passengerKeyMatches (email documentNumber : String) (r : PassengerRow) : Bool :=
  r.email == email && r.documentNumber == documentNumber

/-- The `passenger.update` data block (policies.service.ts lines 103-115):
contact and address fields overwritten in place, identity untouched. -/
def applyPassengerUpdate (p : IssuePassenger) (r : PassengerRow) : PassengerRow :=
  { r with
    phone := p.phone,
    addressCountryCode := p.addressData.countryCode,
    addressStreetName := p.addressData.streetName,
    addressStreetNumber := p.addressData.streetNumber,
    addressComplements := p.addressData.complements,
    addressPostalCode := p.addressData.postalCode,
    addressCity := p.addressData.city,
    addressState := p.addressData.state }

/-- The `passenger.create` data block (policies.service.ts lines 118-147). -/
def newPassengerRow (id : Nat) (p : IssuePassenger) (userId : String) : PassengerRow :=
  { id := id,
    firstName := p.name,
    lastName := p.lastname,
    birthDate := toDbDate p.birthDate,
    email := p.email,
    phone := p.phone,
    countryCode := p.countryCode,
    documentType := p.documentType,
    documentNumber := p.documentNumber,
    preferredFirstName := p.preferredName,
    preferredLastName := p.preferredSurname,
    addressCountryCode := p.addressData.countryCode,
    addressStreetName := p.addressData.streetName,
    addressStreetNumber := p.addressData.streetNumber,
    addressComplements := p.addressData.complements,
    addressPostalCode := p.addressData.postalCode,
    addressCity := p.addressData.city,
    addressState := p.addressData.state,
    createdById := userId }

/-- One passenger upsert (policies.service.ts lines 92-149): `findFirst` by
(email, documentNumber); update the found row by id, or create a fresh one.
Returns the resulting row, the new table, and the next fresh id. -/
def upsertPassenger (table : List PassengerRow) (nextId : Nat) (p : IssuePassenger)
    (userId : String) : PassengerRow × List PassengerRow × Nat :=
  match table.find? (passengerKeyMatches p.email p.documentNumber) with
  | some existing =>
    let updated := applyPassengerUpdate p existing
    (updated, table.map fun r => if r.id == existing.id then updated else r, nextId)
  | none =>
    let row := newPassengerRow nextId p userId
    (row, table ++ [row], nextId + 1)

/-- Step 2 of `issuePolicy`: upsert every request passenger in input order,
collecting the resulting rows 1:1 with the input array. -/
def upsertPassengers (ps : List IssuePassenger) (table : List PassengerRow)
    (nextId : Nat) (userId : String) : List PassengerRow × List PassengerRow × Nat :=
  match ps with
  | [] => ([], table, nextId)
  | p :: rest =>
    let step := upsertPassenger table nextId p userId
    let tail := upsertPassengers rest step.2.1 step.2.2 userId
    (step.1 :: tail.1, tail.2.1, tail.2.2)

/-- Minimal passenger JSON stored on the snapshot
(policies.service.ts lines 59-62). -/
def minimalPassengerJson (p : IssuePassenger) : JsonVal :=
  JsonVal.obj [("countryCode", JsonVal.str p.countryCode),
               ("birthDate", JsonVal.str p.birthDate)]

/-- Per-passenger `selectedAddons` JSON stored on the snapshot
(policies.service.ts lines 72-79). -/
def selectedAddonJson (idx : Nat) (p : IssuePassenger) : JsonVal :=
  JsonVal.obj [("passengerId", JsonVal.num idx),
    ("addons", JsonVal.arr ((p.addons.getD []).map fun a =>
      JsonVal.obj [("addonCode", JsonVal.str a.code),
                   ("rateCode", JsonVal.str a.rateCode),
                   ("category", JsonVal.num a.category)]))]

/-- Step 1 of `issuePolicy` (policies.service.ts lines 46-88): the snapshot
row written unconditionally at the start of the transaction, with status
`issued` and a 24h expiry. -/
def issuanceQuoteRow (id : Nat) (userId : String) (now : Int) (params : IssueParams) :
    QuoteRow :=
  { id := id,
    userId := userId,
    origin := params.itinerary.origin,
    destination := params.itinerary.destination,
    beginDate := toDbDate params.beginDate,
    endDate := toDbDate params.endDate,
    travelType := 1,
    passengersCount := params.passengers.length,
    passengers := params.passengers.map minimalPassengerJson,
    productCode := params.productCode,
    rateCode := params.rateCode,
    productName := params.productCode ++ " " ++ params.rateCode,
    quotedTotal := params.paymentDetails.amount,
    quotedCurrency := firstTruthy params.paymentDetails.currency ("USD"),
    exchangeRate := none,
    processingFee := none,
    selectedAddons := some (params.passengers.enum.map fun x => selectedAddonJson x.1 x.2),
    promotionalCode := params.priceModifiers.bind fun m => m.promotionalCode,
    status := "issued",
    expiresAt := now + 24 * 60 * 60 * 1000 }

/-- The `policy.create` data block for the voucher at one index
(policies.service.ts lines 162-210). -/
def policyRowFor (id quoteId : Nat) (userId : String) (params : IssueParams)
    (data : IssueVouchersResponseData) (v : Voucher) (passengerRow : PassengerRow)
    (inputPassenger : IssuePassenger) : PolicyRow :=
  { id := id,
    quoteId := quoteId,
    userId := userId,
    passengerId := passengerRow.id,
    voucherCode := Nat.repr v.code,
    voucherGroup := Nat.repr data.voucherGroup,
    policyCode := v.policyCode,
    ekitUrl := v.ekitURL,
    policyUrl := v.policyURL,
    productCode := v.productCode,
    productName := v.productName,
    rateCode := params.rateCode,
    beginDate := toDbDate v.effectiveDateStart,
    endDate := toDbDate v.effectiveDateEnd,
    totalAmount := v.amountRate.total,
    currency := firstTruthy params.paymentDetails.currency ("USD"),
    paymentMethod := data.paymentDetails.method,
    paymentReference := data.paymentDetails.referenceNumber,
    paymentCurrencyLocal := data.paymentDetails.currency,
    paymentTotalLocal := data.paymentDetails.totalPaid,
    cardBrand := data.paymentDetails.brand,
    installments := data.paymentDetails.installments,
    exchangeRate := data.exchangeRate,
    processingFee := data.paymentDetails.amountRate.processingFee,
    bookingCode := inputPassenger.bookingCode,
    promotionalCode := params.priceModifiers.bind fun m => m.promotionalCode,
    issuedAddons := v.amountRate.addons,
    status := "active",
    issuanceDate := toDbDate data.issuanceDate }

/-- Step 4 of `issuePolicy` (lines 160-212): one `policy.create` per returned
voucher, index-aligned with the upserted passenger rows
(`passengers[index]`) and the input array (`params.passengers[index]`).
`failAt idx = some msg` injects a database failure on that insert; an index
with no corresponding passenger models the JS crash on
`passengers[index].id` being undefined.  Both abort the transaction. -/
def createPolicies (quoteId : Nat) (userId : String) (params : IssueParams)
    (data : IssueVouchersResponseData) (rows : List PassengerRow)
    (failAt : Nat → Option String) (startId idx : Nat) :
    List Voucher → Except String (List PolicyRow)
  | [] => Except.ok []
  | v :: vs =>
    match failAt idx with
    | some msg => Except.error msg
    | none =>
      match rows.get? idx, params.passengers.get? idx with
      | some pr, some ip =>
        match createPolicies quoteId userId params data rows failAt (startId + 1) (idx + 1) vs with
        | Except.ok rest => Except.ok (policyRowFor startId quoteId userId params data v pr ip :: rest)
        | Except.error msg => Except.error msg
      | _, _ => Except.error ("TypeError: cannot read properties of undefined")

/-- The error surfaced by `issuePolicy`.  There is deliberately no dedicated
post-charge-persistence-failure constructor: the source has no catch around
steps 4-6, so a database failure after the external charge propagates as the
raw error (`dbError`), reaching the client as a generic 500. -/
inductive IssuePolicyError where
  | authError (msg : String)
  | validationError (issues : List ValidationIssue)
  | assistcardError (e : AssistcardApiError)
  | dbError (msg : String)

/-- `IssuePolicyResult` (policies.schema.ts): snapshot, upserted passengers,
created policies, raw voucher list. -/
structure IssuePolicyResult where
  quote : QuoteRow
  passengers : List PassengerRow
  policies : List PolicyRow
  vouchers : List Voucher

/-- `issuePolicy` (policies.service.ts lines 25-234).  External effects are
injected: `tokenRes` is the Token Manager outcome, `net` the fetch outcome of
the charge call, `failAt` the injected database failure on policy inserts.
The whole body runs inside `db.$transaction`: on any error the original `db`
is returned unchanged (total rollback) together with the error; on success
the snapshot, the upserted passenger table and the new policy rows are
committed.  The returned log list holds the entries `issuePolicy` itself
emits: the start log, and the success log only on commit. -/
def issuePolicy (params : IssueParams) (userId : String) (now : Int) (db : Db)
    (pe : PointEmisor) (tokenRes : Except String String) (net : NetOutcome)
    (failAt : Nat → Option String) :
    Except IssuePolicyError IssuePolicyResult × Db × List LogEntry :=
  let startLog : LogEntry := ⟨"info", "Starting policy issuance process"⟩
  let quote := issuanceQuoteRow db.nextId userId now params
  let upserted := upsertPassengers params.passengers db.passengers (db.nextId + 1) userId
  match tokenRes with
  | Except.error msg => (Except.error (IssuePolicyError.authError msg), db, [startLog])
  | Except.ok _tok =>
    match (issueVouchers pe params net).1 with
    | Except.error (IssueCallError.validation issues) =>
      (Except.error (IssuePolicyError.validationError issues), db, [startLog])
    | Except.error (IssueCallError.api e) =>
      (Except.error (IssuePolicyError.assistcardError e), db, [startLog])
    | Except.ok data =>
      match createPolicies quote.id userId params data upserted.1 failAt upserted.2.2 0 data.vouchers with
      | Except.error msg => (Except.error (IssuePolicyError.dbError msg), db, [startLog])
      | Except.ok policies =>
        (Except.ok ⟨quote, upserted.1, policies, data.vouchers⟩,
         { quotes := db.quotes ++ [quote],
           passengers := upserted.2.1,
           policies := db.policies ++ policies,
           nextId := upserted.2.2 + policies.length },
         [startLog, ⟨"info", "Successfully issued and saved policies"⟩])

-- ========== Quote Snapshot persistence (quotes feature) ==========

/-- `saveQuoteRequestSchema` payload (quotes schema): travel parameters, a
passengers JSON array of any shape (`z.array(z.any())`, no length
constraint), the selected product, and optional metadata. -/
structure SaveQuoteRequest where
  origin : String
  destination : String
  beginDate : String
  endDate : String
  travelType : Int
  passengersCount : Int
  passengers : List JsonVal
  productCode : String
  rateCode : String
  productName : String
  quotedTotal : Int
  quotedCurrency : String
  exchangeRate : Option Int
  processingFee : Option Int
  selectedAddons : Option (List JsonVal)
  promotionalCode : Option String

/-- The checks `saveQuoteRequestSchema` performs.  `passengersCount` is
constrained to the integer range 1..16 and `passengers` only to be an array:
no check relates the two. -/
def validateSaveQuoteRequest (p : SaveQuoteRequest) : List ValidationIssue :=
  (if p.origin = "" then
     [⟨"origin", "String must contain at least 1 character"⟩] else []) ++
  (if p.destination = "" then
     [⟨"destination", "String must contain at least 1 character"⟩] else []) ++
  (if dateFormatOk p.beginDate then [] else
     [⟨"beginDate", "Invalid"⟩]) ++
  (if dateFormatOk p.endDate then [] else
     [⟨"endDate", "Invalid"⟩]) ++
  (if p.passengersCount < 1 then
     [⟨"passengersCount", "Number must be greater than or equal to 1"⟩] else []) ++
  (if 16 < p.passengersCount then
     [⟨"passengersCount", "Number must be less than or equal to 16"⟩] else []) ++
  (if p.productCode = "" then
     [⟨"productCode", "String must contain at least 1 character"⟩] else []) ++
  (if p.rateCode = "" then
     [⟨"rateCode", "String must contain at least 1 character"⟩] else []) ++
  (if p.productName = "" then
     [⟨"productName", "String must contain at least 1 character"⟩] else []) ++
  (if p.quotedTotal ≤ 0 then
     [⟨"quotedTotal", "Number must be greater than 0"⟩] else [])

/-- `SaveQuoteResult`: the new row's id and expiry. -/
structure SaveQuoteResult where
  id : Nat
  expiresAt : Int
deriving DecidableEq

/-- `saveQuote` (quotes service): reject when no product was selected
(JS falsiness of `productCode`/`rateCode`, i.e. the empty string), otherwise
write one row with status `saved`, a 24h expiry, and the request's
`passengersCount` and `passengers` persisted verbatim. -/
def saveQuote (params : SaveQuoteRequest) (userId : String) (now : Int) (db : Db) :
    Except String SaveQuoteResult × Db :=
  if params.productCode = "" ∨ params.rateCode = "" then
    (Except.error ("Cannot save quote: Product must be selected (complete Step 2)"), db)
  else
    let row : QuoteRow :=
      { id := db.nextId,
        userId := userId,
        origin := params.origin,
        destination := params.destination,
        beginDate := toDbDate params.beginDate,
        endDate := toDbDate params.endDate,
        travelType := params.travelType,
        passengersCount := params.passengersCount,
        passengers := params.passengers,
        productCode := params.productCode,
        rateCode := params.rateCode,
        productName := params.productName,
        quotedTotal := params.quotedTotal,
        quotedCurrency := params.quotedCurrency,
        exchangeRate := params.exchangeRate,
        processingFee := params.processingFee,
        selectedAddons := params.selectedAddons,
        promotionalCode := params.promotionalCode,
        status := "saved",
        expiresAt := now + 24 * 60 * 60 * 1000 }
    (Except.ok ⟨row.id, row.expiresAt⟩,
     { db with quotes := db.quotes ++ [row], nextId := db.nextId + 1 })

/-- The typed failures of `getQuote`: `NotFoundError` / `ForbiddenError`. -/
inductive GetQuoteError where
  | notFound
  | forbidden
deriving DecidableEq

/-- `getQuote` (quotes service): `findUnique` by id, `NotFoundError` when
absent, `ForbiddenError` on ownership mismatch, otherwise the row is returned
as-is; expiry and `issued` status only produce advisory log entries. -/
def getQuote (quotes : List QuoteRow) (quoteId : Nat) (userId : String) (now : Int) :
    Except GetQuoteError QuoteRow × List LogEntry :=
  match quotes.find? (fun q => q.id == quoteId) with
  | none => (Except.error GetQuoteError.notFound, [])
  | some quote =>
    if quote.userId ≠ userId then (Except.error GetQuoteError.forbidden, [])
    else
      (Except.ok quote,
       (if quote.expiresAt < now then [⟨"warn", "User loading expired quote"⟩] else []) ++
       (if quote.status == "issued" then [⟨"info", "User loading already-issued quote"⟩] else []) ++
       [⟨"info", "Quote loaded for resumption"⟩])

-- ========== Concrete fixtures used by witnesses and counterexamples ==========

/-- Point Emisor configuration as in the documented examples. -/
def samplePe : PointEmisor :=
  { countryCode := "AR", agencyCode := "AG001", branchCode := 1 }

/-- A fully valid issuance passenger (the issue.service.ts doc example). -/
def samplePassenger : IssuePassenger :=
  { countryCode := "AR", documentType := 1, documentNumber := "12345678",
    birthDate := "1990/05/15", lastname := "Garcia", name := "Juan",
    email := "juan@example.com", phone := "54 11 22223333",
    preferredSurname := none, preferredName := none, bookingCode := none,
    addressData :=
      { countryCode := "AR", streetName := "Av. Corrientes", streetNumber := "1234",
        postalCode := "C1043", city := "Buenos Aires", state := "Buenos Aires",
        complements := none },
    addons := none }

/-- A valid tokenized payment block. -/
def samplePayment : PaymentDetails :=
  { currency := some ("USD"), amount := 450, installments := 1,
    cardNumber := "\x7b\x7b\x7b400000Cpcp3Q1091\x7d\x7d\x7d",
    cardHolder := "Juan Garcia", expirationDate := "12/27",
    cvv := "\x7b\x7b\x7btokenized\x7d\x7d\x7d",
    documentNumber := "12345678", brand := "VISA",
    email := "juan@example.com", phone := none }

/-- A fully valid one-passenger issuance request. -/
def sampleParams : IssueParams :=
  { quoteId := none, counterCode := "AG001", productCode := "AC", rateCode := "150",
    beginDate := "2025/02/01", endDate := "2025/02/15",
    itinerary := { code := "AIRPORT", origin := "EZE", destination := "MIA" },
    passengers := [samplePassenger], priceModifiers := none,
    paymentDetails := samplePayment }

/-- One voucher as returned by the provider for `samplePassenger`. -/
def sampleVoucher : Voucher :=
  { code := 123456789, policyCode := none, bookingCode := "MOCK-1",
    documentNumber := "12345678", lastName := "Garcia", name := "Juan",
    ekitURL := "https://documents.assistcard.com/voucher/123456789",
    policyURL := none, productCode := "AC", productName := "AC 150",
    effectiveDateStart := "2025/02/01", effectiveDateEnd := "2025/02/15",
    amountRate :=
      { totalOriginal := 450, total := 450, subtotalAssistance := 360,
        subtotalInsurance := 90, financialTaxes := 0, promotionalCode := none,
        addons := [] } }

/-- The shared payment confirmation of the sample issuance. -/
def samplePaymentResp : PaymentDetailsResponse :=
  { method := "CreditCard", brand := "VISA", installments := 1,
    referenceNumber := "REF-1", currency := "USD", totalPaid := 450,
    amountRate :=
      { totalOriginal := 450, total := 450, processingFee := 0, financialTaxes := 0,
        financialInterest := 0, taxesIncluded := 0, noTaxesIncluded := 450,
        assistance := 360, insurance := 90 } }

/-- The success payload of the sample issuance: one voucher, group 555000111. -/
def sampleIssueData : IssueVouchersResponseData :=
  { countryIdentifier := 54, voucherGroup := 555000111, issuanceDate := "2025/01/20",
    exchangeRate := 1, vouchers := [sampleVoucher], paymentDetails := samplePaymentResp }

/-- A successful provider response envelope. -/
def sampleOkResponse : IssueVouchersResponse :=
  { traceId := "trace-ok", isSuccess := true, data := some sampleIssueData,
    errorCode := none, errorMessage := none, status := none }

/-- A declined-payment provider error envelope (card not charged). -/
def declinedResponse : IssueVouchersResponse :=
  { traceId := "trace-err", isSuccess := false, data := none,
    errorCode := some ("PAYMENT_DECLINED"), errorMessage := some ("Payment declined"),
    status := none }

/-- An empty relational store. -/
def emptyDb : Db :=
  { quotes := [], passengers := [], policies := [], nextId := 1 }

/-- Injected database failure on the first policy insert. -/
def failFirstInsert : Nat → Option String :=
  fun i => if i = 0 then some ("database unavailable") else none

/-- No injected database failure. -/
def noFailure : Nat → Option String :=
  fun _ => none

/-- The provider error envelope of the declined payment, as
`createAssistcardApiError` receives it on the issuance path. -/
def declinedEnvelope : AssistcardError :=
  { title := none, status := none, traceId := "trace-err",
    errorCode := some ("PAYMENT_DECLINED"), errorMessage := some ("Payment declined") }

/-- The sample request with a raw (non-tokenized) card number. -/
def badCardParams : IssueParams :=
  { sampleParams with
    paymentDetails := { samplePayment with cardNumber := "4111111111111111" } }

/-- The sample passenger issuing again later with a new phone number. -/
def samplePassengerNewPhone : IssuePassenger :=
  { samplePassenger with phone := "54 11 99998888" }

/-- The second issuance request of the same identity. -/
def sampleParamsSecond : IssueParams :=
  { sampleParams with passengers := [samplePassengerNewPhone] }

/-- A stored snapshot that is both expired and already issued, owned by
`owner`. -/
def sampleQuoteRow : QuoteRow :=
  { id := 7, userId := "owner", origin := "EZE", destination := "MIA",
    beginDate := "2025-02-01", endDate := "2025-02-15", travelType := 1,
    passengersCount := 1, passengers := [], productCode := "AC", rateCode := "150",
    productName := "AC 150", quotedTotal := 450, quotedCurrency := "USD",
    exchangeRate := none, processingFee := none, selectedAddons := none,
    promotionalCode := none, status := "issued", expiresAt := -1 }

/-- A schema-valid save-quote request whose `passengersCount` (5) does not
match its empty `passengers` array. -/
def sampleSaveRequest : SaveQuoteRequest :=
  { origin := "EZE", destination := "MIA", beginDate := "2025/02/01",
    endDate := "2025/02/15", travelType := 1, passengersCount := 5,
    passengers := [], productCode := "AC", rateCode := "150",
    productName := "AC 150", quotedTotal := 450, quotedCurrency := "USD",
    exchangeRate := none, processingFee := none, selectedAddons := none,
    promotionalCode := none }

-- ========== Helper lemmas ==========

/-- Step 2 collects exactly one resulting row per input passenger. -/
theorem upsertPassengers_length (ps : List IssuePassenger) :
    ∀ table nextId userId, (upsertPassengers ps table nextId userId).1.length = ps.length := by
  induction ps with
  | nil => intro table nextId userId; rfl
  | cons p rest ih =>
    intro table nextId userId
    simp only [upsertPassengers, List.length_cons]
    rw [ih]

-- ========== C4: token safety margin ==========

/-- C4, counterexample to the claim as stated: with an empty cache and a
login response whose provider-stated expiration is only 60 seconds away,
`getValidToken` still returns the fresh token.  The 5-minute margin is
enforced only by the cache-hit comparison; a freshly obtained token is
handed out without re-checking, so its remaining validity
(60000 ms) is below the safety margin (300000 ms) at the moment of return. -/
theorem getValidToken_margin_counterexample :
    (getValidToken false 0 none none (some ⟨"t", 60000, none⟩)).1 = Except.ok ("t") ∧
    (getValidToken false 0 none none (some ⟨"t", 60000, none⟩)).2 =
      some (loginCacheEntry ⟨"t", 60000, none⟩) ∧
    providerExpiryOfCache (loginCacheEntry ⟨"t", 60000, none⟩) - 0 < safetyMarginMs :=
  ⟨rfl, rfl, by decide⟩

/-- C4 (amended): in real mode, whenever the refresh and login responses
carry provider-stated expirations more than the safety margin in the future
(the cache-hit path needs no such assumption), every token returned by
`getValidToken` is the token of the cache entry left behind, and its
remaining validity — provider-stated expiry minus `now` — is at least the
5-minute safety margin at the moment of return. -/
theorem getValidToken_safety_margin (now : Int) (cache : Option TokenCache)
    (refreshResp : Option AuthData) (loginResp : Option LoginData) (tok : String)
    (href : ∀ d, refreshResp = some d → now + safetyMarginMs < d.expiration)
    (hlogin : ∀ l, loginResp = some l → now + safetyMarginMs < l.expiration)
    (hok : (getValidToken false now cache refreshResp loginResp).1 = Except.ok tok) :
    ∃ c, (getValidToken false now cache refreshResp loginResp).2 = some c ∧
      c.token = tok ∧ safetyMarginMs ≤ providerExpiryOfCache c - now := by
  cases cache with
  | none =>
    cases loginResp with
    | none => simp [getValidToken] at hok
    | some l =>
      have hm := hlogin l rfl
      refine ⟨loginCacheEntry l, rfl, Except.ok.inj hok, ?_⟩
      simp only [providerExpiryOfCache, loginCacheEntry]
      omega
  | some c =>
    by_cases hn : now < c.expiresAt
    · have h2 : getValidToken false now (some c) refreshResp loginResp =
          (Except.ok c.token, some c) := by
        simp [getValidToken, hn]
      rw [h2] at hok ⊢
      refine ⟨c, rfl, Except.ok.inj hok, ?_⟩
      simp only [providerExpiryOfCache]
      omega
    · cases hcook : c.refreshCookie with
      | some cookie =>
        cases refreshResp with
        | some d =>
          have hm := href d rfl
          have h2 : getValidToken false now (some c) (some d) loginResp =
              (Except.ok d.token, some (refreshCacheEntry d cookie)) := by
            simp [getValidToken, hn, hcook]
          rw [h2] at hok ⊢
          refine ⟨refreshCacheEntry d cookie, rfl, Except.ok.inj hok, ?_⟩
          simp only [providerExpiryOfCache, refreshCacheEntry]
          omega
        | none =>
          cases loginResp with
          | none =>
            have h2 : getValidToken false now (some c) none none =
                (Except.error ("Assistcard authentication failed"), none) := by
              simp [getValidToken, hn, hcook]
            rw [h2] at hok
            exact absurd hok (by simp)
          | some l =>
            have hm := hlogin l rfl
            have h2 : getValidToken false now (some c) none (some l) =
                (Except.ok l.token, some (loginCacheEntry l)) := by
              simp [getValidToken, hn, hcook]
            rw [h2] at hok ⊢
            refine ⟨loginCacheEntry l, rfl, Except.ok.inj hok, ?_⟩
            simp only [providerExpiryOfCache, loginCacheEntry]
            omega
      | none =>
        cases loginResp with
        | none =>
          have h2 : getValidToken false now (some c) refreshResp none =
              (Except.error ("Assistcard authentication failed"), some c) := by
            simp [getValidToken, hn, hcook]
          rw [h2] at hok
          exact absurd hok (by simp)
        | some l =>
          have hm := hlogin l rfl
          have h2 : getValidToken false now (some c) refreshResp (some l) =
              (Except.ok l.token, some (loginCacheEntry l)) := by
            simp [getValidToken, hn, hcook]
          rw [h2] at hok ⊢
          refine ⟨loginCacheEntry l, rfl, Except.ok.inj hok, ?_⟩
          simp only [providerExpiryOfCache, loginCacheEntry]
          omega

/-- Witness for the amended C4, at a concrete cache-hit input. -/
theorem getValidToken_safety_margin_witness :
    ∃ c, (getValidToken false 0 (some ⟨"tok", 1000, none⟩) none none).2 = some c ∧
      c.token = "tok" ∧ safetyMarginMs ≤ providerExpiryOfCache c - 0 :=
  getValidToken_safety_margin 0 (some ⟨"tok", 1000, none⟩) none none ("tok")
    (fun _ h => Option.noConfusion h) (fun _ h => Option.noConfusion h) rfl

-- ========== C8: stale-token refresh / re-login flow ==========

/-- C8: when the cached token is stale, `getValidToken` (real mode) behaves
exactly as specified: with a refresh handle present and the refresh
succeeding, the cache is replaced keeping the same cookie and the new token
is returned; if the refresh fails (or no handle exists) a full credentials
login is performed, and the new token, the adjusted new expiry and the login
response's refresh handle are cached and returned. -/
theorem getValidToken_stale_paths (now : Int) (c : TokenCache)
    (refreshResp : Option AuthData) (loginResp : Option LoginData)
    (hstale : c.expiresAt ≤ now) :
    (∀ cookie d, c.refreshCookie = some cookie → refreshResp = some d →
      getValidToken false now (some c) refreshResp loginResp =
        (Except.ok d.token, some (refreshCacheEntry d cookie))) ∧
    (∀ l, refreshResp = none → loginResp = some l →
      getValidToken false now (some c) refreshResp loginResp =
        (Except.ok l.token, some (loginCacheEntry l))) ∧
    (∀ l, c.refreshCookie = none → loginResp = some l →
      getValidToken false now (some c) refreshResp loginResp =
        (Except.ok l.token, some (loginCacheEntry l))) := by
  have hn : ¬ now < c.expiresAt := not_lt.mpr hstale
  refine ⟨?_, ?_, ?_⟩
  · intro cookie d hc hr
    subst hr
    simp [getValidToken, hn, hc]
  · intro l hr hl
    subst hr; subst hl
    cases hc : c.refreshCookie with
    | some cookie => simp [getValidToken, hn, hc]
    | none => simp [getValidToken, hn, hc]
  · intro l hc hl
    subst hl
    simp [getValidToken, hn, hc]

/-- Witness for C8 at a concrete stale-cache input (successful refresh). -/
theorem getValidToken_stale_paths_witness :
    getValidToken false 5 (some ⟨"old", 0, some ("cookie")⟩) (some ⟨"new", 1000000⟩) none =
      (Except.ok ("new"), some (refreshCacheEntry ⟨"new", 1000000⟩ ("cookie"))) :=
  (getValidToken_stale_paths 5 ⟨"old", 0, some ("cookie")⟩ (some ⟨"new", 1000000⟩) none
    (by decide)).1 ("cookie") ⟨"new", 1000000⟩ rfl rfl

-- ========== C9: provider error translation and status mapping ==========

/-- C9: the local error carries the envelope's trace id, error code and
(non-empty) message; the fixed mapping table sends provider 400 to 400,
401 and 403 to 502, 429 to the 502/503 class, every 5xx status to 502, any
status with no dedicated table entry and a missing status to 502; and a
network-level failure with no response at all is raised as an
`AssistcardApiError` with the distinct status 503. -/
theorem assistcard_error_translation (e : AssistcardError) (s : Nat) (m : String) :
    (createAssistcardApiError e).traceId = e.traceId ∧
    (createAssistcardApiError e).errorCode = e.errorCode ∧
    (e.errorMessage = some m → m ≠ "" → (createAssistcardApiError e).message = m) ∧
    mapAssistcardStatusCode (some 400) = 400 ∧
    mapAssistcardStatusCode (some 401) = 502 ∧
    mapAssistcardStatusCode (some 403) = 502 ∧
    (mapAssistcardStatusCode (some 429) = 502 ∨ mapAssistcardStatusCode (some 429) = 503) ∧
    (500 ≤ s → s ≤ 599 → mapAssistcardStatusCode (some s) = 502) ∧
    (s ∉ ([400, 401, 403, 404, 422, 429, 500, 502, 503, 504] : List Nat) →
      mapAssistcardStatusCode (some s) = 502) ∧
    mapAssistcardStatusCode none = 502 ∧
    (∀ pe params msg, validateIssueRequest pe params = [] →
      (issueVouchers pe params (NetOutcome.networkError msg)).1 =
        Except.error (IssueCallError.api
          { message := "Network error: " ++ msg, traceId := "unknown",
            errorCode := some ("NETWORK_ERROR"), statusCode := 503 })) := by
  refine ⟨rfl, rfl, ?_, rfl, rfl, rfl, Or.inr rfl, ?_, ?_, rfl, ?_⟩
  · intro h1 h2
    simp [createAssistcardApiError, firstTruthy, h1, h2]
  · intro h1 h2
    simp only [mapAssistcardStatusCode]
    split_ifs <;> first | rfl | omega
  · intro h
    simp only [mapAssistcardStatusCode]
    split_ifs <;> first | rfl | (exfalso; exact h (by simp [*]))
  · intro pe params msg hv
    simp [issueVouchers, hv]

/-- Witness for C9 at concrete inputs: the declined-payment envelope keeps
its fields and maps a missing status to 502; status 501 maps to 502; a
network failure on the valid sample request raises the 503-class error. -/
theorem assistcard_error_translation_witness :
    (createAssistcardApiError declinedEnvelope).message = "Payment declined" ∧
    mapAssistcardStatusCode (some 501) = 502 ∧
    (issueVouchers samplePe sampleParams (NetOutcome.networkError ("ECONNREFUSED"))).1 =
      Except.error (IssueCallError.api
        { message := "Network error: ECONNREFUSED", traceId := "unknown",
          errorCode := some ("NETWORK_ERROR"), statusCode := 503 }) := by
  have h := assistcard_error_translation declinedEnvelope 501 ("Payment declined")
  refine ⟨h.2.2.1 rfl (by decide), ?_, ?_⟩
  · exact h.2.2.2.2.2.2.2.1 (by decide) (by decide)
  · exact h.2.2.2.2.2.2.2.2.2.2 samplePe sampleParams ("ECONNREFUSED") (by decide)

-- ========== C5: tokenization-marker validation before the network ==========

/-- C5: whenever the payment block's `cardNumber` or `cvv` is not wrapped in
literal triple braces, `issueVouchers` fails with a validation error whose
issue list names that field, and the network call is never made
(`.parse` throws before `fetch`). -/
theorem issueVouchers_rejects_unwrapped_tokens (pe : PointEmisor) (params : IssueParams)
    (net : NetOutcome)
    (hbad : tripleBraceWrapped params.paymentDetails.cardNumber = false ∨
            tripleBraceWrapped params.paymentDetails.cvv = false) :
    ∃ issues,
      (issueVouchers pe params net).1 = Except.error (IssueCallError.validation issues) ∧
      (issueVouchers pe params net).2 = false ∧
      (tripleBraceWrapped params.paymentDetails.cardNumber = false →
        ∃ i ∈ issues, i.path = "paymentDetails.cardNumber") ∧
      (tripleBraceWrapped params.paymentDetails.cvv = false →
        ∃ i ∈ issues, i.path = "paymentDetails.cvv") := by
  have hcard : tripleBraceWrapped params.paymentDetails.cardNumber = false →
      ∃ i ∈ validateIssueRequest pe params, i.path = "paymentDetails.cardNumber" := by
    intro h
    refine ⟨⟨"paymentDetails.cardNumber",
      "Card number must be tokenized and wrapped in triple braces: \x7b\x7b\x7btoken\x7d\x7d\x7d"⟩,
      ?_, rfl⟩
    apply List.mem_append_right
    simp [validatePaymentDetails, h]
  have hcvv : tripleBraceWrapped params.paymentDetails.cvv = false →
      ∃ i ∈ validateIssueRequest pe params, i.path = "paymentDetails.cvv" := by
    intro h
    refine ⟨⟨"paymentDetails.cvv",
      "CVV must be tokenized and wrapped in triple braces: \x7b\x7b\x7btoken\x7d\x7d\x7d"⟩,
      ?_, rfl⟩
    apply List.mem_append_right
    simp [validatePaymentDetails, h]
  have hne : validateIssueRequest pe params ≠ [] := by
    intro hnil
    cases hbad with
    | inl h => obtain ⟨i, hi, _⟩ := hcard h; rw [hnil] at hi; cases hi
    | inr h => obtain ⟨i, hi, _⟩ := hcvv h; rw [hnil] at hi; cases hi
  cases hL : validateIssueRequest pe params with
  | nil => exact absurd hL hne
  | cons a as =>
    refine ⟨a :: as, ?_, ?_, ?_, ?_⟩
    · simp [issueVouchers, hL]
    · simp [issueVouchers, hL]
    · intro h; exact hL ▸ hcard h
    · intro h; exact hL ▸ hcvv h

/-- Witness for C5: the sample request with a raw card number is rejected
before the network call, naming `paymentDetails.cardNumber`. -/
theorem issueVouchers_rejects_unwrapped_tokens_witness :
    ∃ issues,
      (issueVouchers samplePe badCardParams (NetOutcome.response sampleOkResponse)).1 =
        Except.error (IssueCallError.validation issues) ∧
      (issueVouchers samplePe badCardParams (NetOutcome.response sampleOkResponse)).2 = false ∧
      (tripleBraceWrapped badCardParams.paymentDetails.cardNumber = false →
        ∃ i ∈ issues, i.path = "paymentDetails.cardNumber") ∧
      (tripleBraceWrapped badCardParams.paymentDetails.cvv = false →
        ∃ i ∈ issues, i.path = "paymentDetails.cvv") :=
  issueVouchers_rejects_unwrapped_tokens samplePe badCardParams
    (NetOutcome.response sampleOkResponse) (Or.inl (by decide))

-- ========== C7: getQuote access control ==========

/-- C7: `getQuote` fails with NotFound when no snapshot with the id exists,
fails with Forbidden whenever the owner differs from the caller — for every
row, whatever its expiry or status — and otherwise returns the row as-is
(expiry and issued status are advisory log entries only). -/
theorem getQuote_access_control (quotes : List QuoteRow) (quoteId : Nat)
    (userId : String) (now : Int) :
    (quotes.find? (fun r => r.id == quoteId) = none →
      (getQuote quotes quoteId userId now).1 = Except.error GetQuoteError.notFound) ∧
    (∀ q, quotes.find? (fun r => r.id == quoteId) = some q → q.userId ≠ userId →
      (getQuote quotes quoteId userId now).1 = Except.error GetQuoteError.forbidden) ∧
    (∀ q, quotes.find? (fun r => r.id == quoteId) = some q → q.userId = userId →
      (getQuote quotes quoteId userId now).1 = Except.ok q) := by
  refine ⟨?_, ?_, ?_⟩
  · intro h
    simp [getQuote, h]
  · intro q h hne
    simp [getQuote, h, hne]
  · intro q h heq
    simp [getQuote, h, heq]

/-- Witness for C7: a missing id, a non-owner on an expired and already
issued snapshot, and the owner on the same snapshot. -/
theorem getQuote_access_control_witness :
    (getQuote [] 7 ("owner") 0).1 = Except.error GetQuoteError.notFound ∧
    (getQuote [sampleQuoteRow] 7 ("intruder") 0).1 = Except.error GetQuoteError.forbidden ∧
    (getQuote [sampleQuoteRow] 7 ("owner") 0).1 = Except.ok sampleQuoteRow := by
  refine ⟨(getQuote_access_control [] 7 ("owner") 0).1 rfl, ?_, ?_⟩
  · exact (getQuote_access_control [sampleQuoteRow] 7 ("intruder") 0).2.1
      sampleQuoteRow rfl (by decide)
  · exact (getQuote_access_control [sampleQuoteRow] 7 ("owner") 0).2.2
      sampleQuoteRow rfl rfl

-- ========== C10: saveQuote ignores the passengersCount / array relation ==========

/-- C10: the save-quote schema checks `passengersCount` only against the
range 1..16 and never against the `passengers` array, which is left
completely unconstrained here; `saveQuote` then persists both exactly as
given in the new row (status `saved`). -/
theorem saveQuote_no_passenger_count_check (params : SaveQuoteRequest)
    (userId : String) (now : Int) (db : Db)
    (ho : ¬ params.origin = "") (hd : ¬ params.destination = "")
    (hb : dateFormatOk params.beginDate = true) (he : dateFormatOk params.endDate = true)
    (hc1 : 1 ≤ params.passengersCount) (hc2 : params.passengersCount ≤ 16)
    (hp : ¬ params.productCode = "") (hr : ¬ params.rateCode = "")
    (hm : ¬ params.productName = "") (hq : 0 < params.quotedTotal) :
    validateSaveQuoteRequest params = [] ∧
    (saveQuote params userId now db).1 =
      Except.ok ⟨db.nextId, now + 24 * 60 * 60 * 1000⟩ ∧
    ∃ row, (saveQuote params userId now db).2.quotes = db.quotes ++ [row] ∧
      row.passengersCount = params.passengersCount ∧
      row.passengers = params.passengers ∧
      row.status = "saved" := by
  have hgate : ¬ (params.productCode = "" ∨ params.rateCode = "") := by
    intro h
    cases h with
    | inl h => exact hp h
    | inr h => exact hr h
  refine ⟨?_, ?_, ?_⟩
  · have hn1 : ¬ params.passengersCount < 1 := by omega
    have hn2 : ¬ 16 < params.passengersCount := by omega
    have hn3 : ¬ params.quotedTotal ≤ 0 := by omega
    simp [validateSaveQuoteRequest, ho, hd, hb, he, hn1, hn2, hp, hr, hm, hn3]
  · simp [saveQuote, hgate]
  · exact ⟨⟨db.nextId, userId, params.origin, params.destination,
      toDbDate params.beginDate, toDbDate params.endDate, params.travelType,
      params.passengersCount, params.passengers, params.productCode,
      params.rateCode, params.productName, params.quotedTotal,
      params.quotedCurrency, params.exchangeRate, params.processingFee,
      params.selectedAddons, params.promotionalCode, "saved",
      now + 24 * 60 * 60 * 1000⟩,
      by simp [saveQuote, hgate], rfl, rfl, rfl⟩

/-- Witness for C10: a schema-valid request declaring 5 passengers with an
empty passengers array is accepted and persisted verbatim. -/
theorem saveQuote_no_passenger_count_check_witness :
    validateSaveQuoteRequest sampleSaveRequest = [] ∧
    (saveQuote sampleSaveRequest ("user-1") 0 emptyDb).1 =
      Except.ok ⟨emptyDb.nextId, 0 + 24 * 60 * 60 * 1000⟩ ∧
    ∃ row, (saveQuote sampleSaveRequest ("user-1") 0 emptyDb).2.quotes =
        emptyDb.quotes ++ [row] ∧
      row.passengersCount = sampleSaveRequest.passengersCount ∧
      row.passengers = sampleSaveRequest.passengers ∧
      row.status = "saved" :=
  saveQuote_no_passenger_count_check sampleSaveRequest ("user-1") 0 emptyDb
    (by decide) (by decide) (by decide) (by decide) (by decide) (by decide)
    (by decide) (by decide) (by decide) (by decide)

-- ========== C1: no distinct post-charge persistence-failure handling ==========

/-- C1, behavior at the failing input: one valid passenger, the external
charge succeeds (voucher group 555000111, voucher code 123456789), and the
policy insert then fails with a database error.  `issuePolicy` has no catch
around steps 4-6, so the raw database error propagates (`dbError`, which the
shared error layer serializes as a generic 500 `InternalServerError`), the
transaction rolls back, and the only log record emitted is the informational
start entry — no highest-severity record carrying the trace id, voucher
group, voucher codes, amount or user identity, contrary to the module's own
recovery notes. -/
theorem issuePolicy_post_charge_db_failure_behavior :
    (issuePolicy sampleParams ("user-1") 0 emptyDb samplePe (Except.ok ("tok"))
        (NetOutcome.response sampleOkResponse) failFirstInsert).1 =
      Except.error (IssuePolicyError.dbError ("database unavailable")) ∧
    (issuePolicy sampleParams ("user-1") 0 emptyDb samplePe (Except.ok ("tok"))
        (NetOutcome.response sampleOkResponse) failFirstInsert).2.1 = emptyDb ∧
    ((issuePolicy sampleParams ("user-1") 0 emptyDb samplePe (Except.ok ("tok"))
        (NetOutcome.response sampleOkResponse) failFirstInsert).2.2.all
      fun l => l.level == "info") = true :=
  ⟨rfl, rfl, rfl⟩

-- ========== C2: rollback on charge failure ==========

/-- C2, counterexample to the claim as stated: starting from an empty store,
a declined external charge makes `issuePolicy` return the typed Assistcard
error — and the store afterwards holds no QuoteSnapshot row at all.  The
snapshot is created inside the same `db.$transaction`, so it is rolled back
with everything else; the claim's "QuoteSnapshot row created in step 1 does
persist" is false on this code. -/
theorem issuePolicy_snapshot_rollback_counterexample :
    (issuePolicy sampleParams ("user-1") 0 emptyDb samplePe (Except.ok ("tok"))
        (NetOutcome.response declinedResponse) noFailure).1 =
      Except.error (IssuePolicyError.assistcardError
        { message := "Payment declined", traceId := "trace-err",
          errorCode := some ("PAYMENT_DECLINED"), statusCode := 502 }) ∧
    (issuePolicy sampleParams ("user-1") 0 emptyDb samplePe (Except.ok ("tok"))
        (NetOutcome.response declinedResponse) noFailure).2.1.quotes = [] ∧
    (issuePolicy sampleParams ("user-1") 0 emptyDb samplePe (Except.ok ("tok"))
        (NetOutcome.response declinedResponse) noFailure).2.1.passengers = [] ∧
    (issuePolicy sampleParams ("user-1") 0 emptyDb samplePe (Except.ok ("tok"))
        (NetOutcome.response declinedResponse) noFailure).2.1.policies = [] :=
  ⟨rfl, rfl, rfl, rfl⟩

/-- C2 (amended): when the external charge call fails with any error class,
`issuePolicy` returns an error and the database is left exactly as it was —
no Policy row, no Passenger mutation, and no QuoteSnapshot row either:
rollback is total, because the snapshot write happens inside the same
transaction that aborts. -/
theorem issuePolicy_total_rollback_on_charge_failure (params : IssueParams)
    (userId : String) (now : Int) (db : Db) (pe : PointEmisor)
    (tokenRes : Except String String) (net : NetOutcome)
    (failAt : Nat → Option String) (err : IssueCallError)
    (hfail : (issueVouchers pe params net).1 = Except.error err) :
    (∃ e, (issuePolicy params userId now db pe tokenRes net failAt).1 =
      Except.error e) ∧
    (issuePolicy params userId now db pe tokenRes net failAt).2.1 = db := by
  cases tokenRes with
  | error msg => exact ⟨⟨IssuePolicyError.authError msg, rfl⟩, rfl⟩
  | ok tok =>
    cases err with
    | validation issues =>
      refine ⟨⟨IssuePolicyError.validationError issues, ?_⟩, ?_⟩ <;>
        simp [issuePolicy, hfail]
    | api e =>
      refine ⟨⟨IssuePolicyError.assistcardError e, ?_⟩, ?_⟩ <;>
        simp [issuePolicy, hfail]

/-- Witness for the amended C2 at the declined-payment input. -/
theorem issuePolicy_total_rollback_on_charge_failure_witness :
    (∃ e, (issuePolicy sampleParams ("user-1") 0 emptyDb samplePe (Except.ok ("tok"))
        (NetOutcome.response declinedResponse) noFailure).1 = Except.error e) ∧
    (issuePolicy sampleParams ("user-1") 0 emptyDb samplePe (Except.ok ("tok"))
        (NetOutcome.response declinedResponse) noFailure).2.1 = emptyDb :=
  issuePolicy_total_rollback_on_charge_failure sampleParams ("user-1") 0 emptyDb samplePe
    (Except.ok ("tok")) (NetOutcome.response declinedResponse) noFailure
    (IssueCallError.api (createAssistcardApiError (issueErrorEnvelope declinedResponse))) rfl

-- ========== C3: success path counts, links, shared voucher group ==========

/-- Specification of a failure-free policy-creation loop: it succeeds, writes
one row per voucher, and the row at each offset links the passenger row and
voucher at the same offset, stamping every row with the shared voucher
group. -/
theorem createPolicies_spec (quoteId : Nat) (userId : String) (params : IssueParams)
    (data : IssueVouchersResponseData) (rows : List PassengerRow) :
    ∀ (vs : List Voucher) (startId idx : Nat),
      (∀ j, j < vs.length → idx + j < rows.length ∧ idx + j < params.passengers.length) →
      ∃ L, createPolicies quoteId userId params data rows noFailure startId idx vs =
          Except.ok L ∧
        L.length = vs.length ∧
        (∀ j p, L.get? j = some p →
          ∃ r v, rows.get? (idx + j) = some r ∧ vs.get? j = some v ∧
            p.passengerId = r.id ∧ p.voucherCode = Nat.repr v.code ∧
            p.voucherGroup = Nat.repr data.voucherGroup) := by
  intro vs
  induction vs with
  | nil =>
    intro startId idx h
    exact ⟨[], rfl, rfl, by intro j p hp; cases hp⟩
  | cons v rest ih =>
    intro startId idx h
    obtain ⟨hr0, hp0⟩ := h 0 (Nat.succ_pos _)
    rw [Nat.add_zero] at hr0 hp0
    obtain ⟨r, hr⟩ : ∃ r, rows.get? idx = some r := ⟨_, List.get?_eq_get hr0⟩
    obtain ⟨ip, hp⟩ : ∃ ip, params.passengers.get? idx = some ip :=
      ⟨_, List.get?_eq_get hp0⟩
    obtain ⟨L, hL, hlen, hspec⟩ := ih (startId + 1) (idx + 1) (by
      intro j hj
      have hjj := h (j + 1) (Nat.succ_lt_succ hj)
      omega)
    refine ⟨policyRowFor startId quoteId userId params data v r ip :: L, ?_, ?_, ?_⟩
    · simp only [createPolicies, noFailure]
      rw [hr, hp, hL]
    · simp [hlen]
    · intro j p hpj
      cases j with
      | zero =>
        rw [Nat.add_zero]
        cases hpj
        exact ⟨r, v, hr, rfl, rfl, rfl, rfl⟩
      | succ j' =>
        obtain ⟨r', v', h1, h2, h3, h4, h5⟩ := hspec j' p hpj
        have hidx : idx + (j' + 1) = (idx + 1) + j' := by omega
        rw [hidx]
        exact ⟨r', v', h1, h2, h3, h4, h5⟩

/-- C3: when the external charge succeeds and the provider returns one
voucher per passenger, `issuePolicy` commits and: the number of Policy rows
created equals the number of vouchers equals the number of input passengers,
the i-th policy links the i-th upserted passenger row to the i-th voucher,
and all policies of the issuance carry the same `voucherGroup`. -/
theorem issuePolicy_success_counts_and_links (params : IssueParams) (userId : String)
    (now : Int) (db : Db) (pe : PointEmisor) (tok : String) (net : NetOutcome)
    (data : IssueVouchersResponseData)
    (hcharge : (issueVouchers pe params net).1 = Except.ok data)
    (hlen : data.vouchers.length = params.passengers.length) :
    ∃ res, (issuePolicy params userId now db pe (Except.ok tok) net noFailure).1 =
        Except.ok res ∧
      (issuePolicy params userId now db pe (Except.ok tok) net noFailure).2.1.policies =
        db.policies ++ res.policies ∧
      res.policies.length = data.vouchers.length ∧
      data.vouchers.length = params.passengers.length ∧
      res.passengers.length = params.passengers.length ∧
      (∀ j p, res.policies.get? j = some p →
        ∃ r v, res.passengers.get? j = some r ∧ data.vouchers.get? j = some v ∧
          p.passengerId = r.id ∧ p.voucherCode = Nat.repr v.code ∧
          p.voucherGroup = Nat.repr data.voucherGroup) ∧
      (∀ p1 ∈ res.policies, ∀ p2 ∈ res.policies, p1.voucherGroup = p2.voucherGroup) := by
  have hrl : (upsertPassengers params.passengers db.passengers (db.nextId + 1) userId).1.length
      = params.passengers.length := upsertPassengers_length _ _ _ _
  obtain ⟨L, hL, hlenL, hspec⟩ := createPolicies_spec
    (issuanceQuoteRow db.nextId userId now params).id userId params data
    (upsertPassengers params.passengers db.passengers (db.nextId + 1) userId).1
    data.vouchers
    (upsertPassengers params.passengers db.passengers (db.nextId + 1) userId).2.2
    0 (by intro j hj; rw [hrl]; omega)
  have hred : issuePolicy params userId now db pe (Except.ok tok) net noFailure =
      (Except.ok ⟨issuanceQuoteRow db.nextId userId now params,
          (upsertPassengers params.passengers db.passengers (db.nextId + 1) userId).1,
          L, data.vouchers⟩,
        { quotes := db.quotes ++ [issuanceQuoteRow db.nextId userId now params],
          passengers :=
            (upsertPassengers params.passengers db.passengers (db.nextId + 1) userId).2.1,
          policies := db.policies ++ L,
          nextId :=
            (upsertPassengers params.passengers db.passengers (db.nextId + 1) userId).2.2
              + L.length },
        [⟨"info", "Starting policy issuance process"⟩,
         ⟨"info", "Successfully issued and saved policies"⟩]) := by
    simp only [issuePolicy, hcharge, hL]
  refine ⟨⟨issuanceQuoteRow db.nextId userId now params,
      (upsertPassengers params.passengers db.passengers (db.nextId + 1) userId).1,
      L, data.vouchers⟩, ?_, ?_, ?_, hlen, ?_, ?_, ?_⟩
  · rw [hred]
  · rw [hred]
  · exact hlenL
  · exact hrl
  · intro j p hpj
    obtain ⟨r, v, h1, h2, h3, h4, h5⟩ := hspec j p hpj
    rw [Nat.zero_add] at h1
    exact ⟨r, v, h1, h2, h3, h4, h5⟩
  · intro p1 hp1 p2 hp2
    obtain ⟨j1, hj1⟩ := List.get?_of_mem hp1
    obtain ⟨j2, hj2⟩ := List.get?_of_mem hp2
    obtain ⟨_, _, _, _, _, _, h5a⟩ := hspec j1 p1 hj1
    obtain ⟨_, _, _, _, _, _, h5b⟩ := hspec j2 p2 hj2
    rw [h5a, h5b]

/-- Witness for C3 at the concrete sample issuance (one passenger, one
voucher, group 555000111). -/
theorem issuePolicy_success_counts_and_links_witness :
    ∃ res, (issuePolicy sampleParams ("user-1") 0 emptyDb samplePe (Except.ok ("tok"))
        (NetOutcome.response sampleOkResponse) noFailure).1 = Except.ok res ∧
      (issuePolicy sampleParams ("user-1") 0 emptyDb samplePe (Except.ok ("tok"))
        (NetOutcome.response sampleOkResponse) noFailure).2.1.policies =
        emptyDb.policies ++ res.policies ∧
      res.policies.length = sampleIssueData.vouchers.length ∧
      sampleIssueData.vouchers.length = sampleParams.passengers.length ∧
      res.passengers.length = sampleParams.passengers.length ∧
      (∀ j p, res.policies.get? j = some p →
        ∃ r v, res.passengers.get? j = some r ∧
          sampleIssueData.vouchers.get? j = some v ∧
          p.passengerId = r.id ∧ p.voucherCode = Nat.repr v.code ∧
          p.voucherGroup = Nat.repr sampleIssueData.voucherGroup) ∧
      (∀ p1 ∈ res.policies, ∀ p2 ∈ res.policies, p1.voucherGroup = p2.voucherGroup) :=
  issuePolicy_success_counts_and_links sampleParams ("user-1") 0 emptyDb samplePe ("tok")
    (NetOutcome.response sampleOkResponse) sampleIssueData rfl rfl

-- ========== C6: passenger upsert idempotency across two issuances ==========

set_option maxHeartbeats 1000000 in
/-- C6: issuing twice for the same identity — two one-passenger requests
agreeing on (email, documentNumber) but with different phone numbers,
against a store holding no row for that identity (and ids below the
generator, as the id counter guarantees) — leaves exactly one Passenger row
for that identity, holding the second request's phone number: the second
run's `findFirst` hits the row created by the first run and overwrites its
contact fields in place instead of creating a sibling. -/
theorem issuePolicy_passenger_upsert_idempotent
    (params1 params2 : IssueParams) (p1 p2 : IssuePassenger) (userId1 userId2 : String)
    (now1 now2 : Int) (db : Db) (pe : PointEmisor) (tok1 tok2 : String)
    (net1 net2 : NetOutcome) (data1 data2 : IssueVouchersResponseData)
    (hp1 : params1.passengers = [p1]) (hp2 : params2.passengers = [p2])
    (hemail : p2.email = p1.email) (hdoc : p2.documentNumber = p1.documentNumber)
    (hphone : p2.phone ≠ p1.phone)
    (hfresh : ∀ r ∈ db.passengers,
      passengerKeyMatches p1.email p1.documentNumber r = false)
    (hids : ∀ r ∈ db.passengers, r.id < db.nextId)
    (hcharge1 : (issueVouchers pe params1 net1).1 = Except.ok data1)
    (hcharge2 : (issueVouchers pe params2 net2).1 = Except.ok data2)
    (hlen1 : data1.vouchers.length = 1) (hlen2 : data2.vouchers.length = 1) :
    (((issuePolicy params2 userId2 now2
        (issuePolicy params1 userId1 now1 db pe (Except.ok tok1) net1 noFailure).2.1
        pe (Except.ok tok2) net2 noFailure).2.1.passengers.filter
          (passengerKeyMatches p1.email p1.documentNumber)).length = 1) ∧
    (∀ r ∈ (issuePolicy params2 userId2 now2
        (issuePolicy params1 userId1 now1 db pe (Except.ok tok1) net1 noFailure).2.1
        pe (Except.ok tok2) net2 noFailure).2.1.passengers.filter
          (passengerKeyMatches p1.email p1.documentNumber),
      r.phone = p2.phone) := by
  obtain ⟨v1, hv1⟩ := List.length_eq_one.mp hlen1
  obtain ⟨v2, hv2⟩ := List.length_eq_one.mp hlen2
  -- ===== first run =====
  have hfind1 : db.passengers.find?
      (passengerKeyMatches p1.email p1.documentNumber) = none :=
    List.find?_eq_none.mpr fun x hx => by simp [hfresh x hx]
  have hup1 : upsertPassengers params1.passengers db.passengers (db.nextId + 1) userId1 =
      ([newPassengerRow (db.nextId + 1) p1 userId1],
       db.passengers ++ [newPassengerRow (db.nextId + 1) p1 userId1],
       db.nextId + 1 + 1) := by
    rw [hp1]
    simp only [upsertPassengers, upsertPassenger, hfind1]
  have hcp1 : createPolicies (issuanceQuoteRow db.nextId userId1 now1 params1).id userId1
      params1 data1 [newPassengerRow (db.nextId + 1) p1 userId1] noFailure
      (db.nextId + 1 + 1) 0 data1.vouchers =
      Except.ok [policyRowFor (db.nextId + 1 + 1)
        (issuanceQuoteRow db.nextId userId1 now1 params1).id userId1 params1 data1 v1
        (newPassengerRow (db.nextId + 1) p1 userId1) p1] := by
    rw [hv1]
    simp only [createPolicies, noFailure, hp1]
    rfl
  have hrun1 : (issuePolicy params1 userId1 now1 db pe (Except.ok tok1) net1
      noFailure).2.1 =
      { quotes := db.quotes ++ [issuanceQuoteRow db.nextId userId1 now1 params1],
        passengers := db.passengers ++ [newPassengerRow (db.nextId + 1) p1 userId1],
        policies := db.policies ++ [policyRowFor (db.nextId + 1 + 1)
          (issuanceQuoteRow db.nextId userId1 now1 params1).id userId1 params1 data1 v1
          (newPassengerRow (db.nextId + 1) p1 userId1) p1],
        nextId := db.nextId + 1 + 1 + 1 } := by
    simp only [issuePolicy, hcharge1, hup1, hcp1, List.length_singleton]
  -- ===== second run =====
  have hkey1 : passengerKeyMatches p1.email p1.documentNumber
      (newPassengerRow (db.nextId + 1) p1 userId1) = true := by
    simp [passengerKeyMatches, newPassengerRow]
  have hfind2 : (db.passengers ++ [newPassengerRow (db.nextId + 1) p1 userId1]).find?
      (passengerKeyMatches p2.email p2.documentNumber) =
      some (newPassengerRow (db.nextId + 1) p1 userId1) := by
    rw [hemail, hdoc, List.find?_append, hfind1]
    exact List.find?_cons_of_pos _ hkey1
  have hup2 : upsertPassengers params2.passengers
      (db.passengers ++ [newPassengerRow (db.nextId + 1) p1 userId1])
      (db.nextId + 1 + 1 + 1 + 1) userId2 =
      ([applyPassengerUpdate p2 (newPassengerRow (db.nextId + 1) p1 userId1)],
       (db.passengers ++ [newPassengerRow (db.nextId + 1) p1 userId1]).map
         (fun r => if r.id == (newPassengerRow (db.nextId + 1) p1 userId1).id then
           applyPassengerUpdate p2 (newPassengerRow (db.nextId + 1) p1 userId1) else r),
       db.nextId + 1 + 1 + 1 + 1) := by
    rw [hp2]
    simp only [upsertPassengers, upsertPassenger, hfind2]
  have hmap : (db.passengers ++ [newPassengerRow (db.nextId + 1) p1 userId1]).map
      (fun r => if r.id == (newPassengerRow (db.nextId + 1) p1 userId1).id then
        applyPassengerUpdate p2 (newPassengerRow (db.nextId + 1) p1 userId1) else r) =
      db.passengers ++ [applyPassengerUpdate p2 (newPassengerRow (db.nextId + 1) p1 userId1)] := by
    rw [List.map_append]
    congr 1
    · refine (List.map_congr_left ?_).trans (List.map_id _)
      intro r hr
      have hlt := hids r hr
      have hne : (r.id == (newPassengerRow (db.nextId + 1) p1 userId1).id) = false := by
        have : r.id ≠ db.nextId + 1 := by omega
        simp [newPassengerRow, this]
      simp [hne]
    · simp
  have hcp2 : createPolicies
      (issuanceQuoteRow (db.nextId + 1 + 1 + 1) userId2 now2 params2).id userId2
      params2 data2 [applyPassengerUpdate p2 (newPassengerRow (db.nextId + 1) p1 userId1)]
      noFailure (db.nextId + 1 + 1 + 1 + 1) 0 data2.vouchers =
      Except.ok [policyRowFor (db.nextId + 1 + 1 + 1 + 1)
        (issuanceQuoteRow (db.nextId + 1 + 1 + 1) userId2 now2 params2).id userId2 params2
        data2 v2 (applyPassengerUpdate p2 (newPassengerRow (db.nextId + 1) p1 userId1)) p2] := by
    rw [hv2]
    simp only [createPolicies, noFailure, hp2]
    rfl
  have hrun2 : (issuePolicy params2 userId2 now2
      { quotes := db.quotes ++ [issuanceQuoteRow db.nextId userId1 now1 params1],
        passengers := db.passengers ++ [newPassengerRow (db.nextId + 1) p1 userId1],
        policies := db.policies ++ [policyRowFor (db.nextId + 1 + 1)
          (issuanceQuoteRow db.nextId userId1 now1 params1).id userId1 params1 data1 v1
          (newPassengerRow (db.nextId + 1) p1 userId1) p1],
        nextId := db.nextId + 1 + 1 + 1 }
      pe (Except.ok tok2) net2 noFailure).2.1.passengers =
      db.passengers ++ [applyPassengerUpdate p2 (newPassengerRow (db.nextId + 1) p1 userId1)] := by
    simp only [issuePolicy, hcharge2, hup2, hcp2, hmap]
  -- ===== combine =====
  rw [hrun1, hrun2, List.filter_append]
  have hfilter1 : db.passengers.filter
      (passengerKeyMatches p1.email p1.documentNumber) = [] :=
    List.filter_eq_nil_iff.mpr fun a ha => by simp [hfresh a ha]
  have hkey2 : passengerKeyMatches p1.email p1.documentNumber
      (applyPassengerUpdate p2 (newPassengerRow (db.nextId + 1) p1 userId1)) = true := by
    simp [passengerKeyMatches, applyPassengerUpdate, newPassengerRow]
  rw [hfilter1]
  constructor
  · simp [List.filter, hkey2]
  · intro r hr
    rw [List.nil_append] at hr
    have hr2 : r = applyPassengerUpdate p2 (newPassengerRow (db.nextId + 1) p1 userId1) := by
      simpa [List.filter_cons, hkey2] using hr
    rw [hr2]
    rfl

/-- Witness for C6: the sample identity issued twice (second time with a new
phone number) against an empty store ends with exactly one matching
Passenger row carrying the new phone number. -/
theorem issuePolicy_passenger_upsert_idempotent_witness :
    (((issuePolicy sampleParamsSecond ("user-2") 1
        (issuePolicy sampleParams ("user-1") 0 emptyDb samplePe (Except.ok ("tok"))
          (NetOutcome.response sampleOkResponse) noFailure).2.1
        samplePe (Except.ok ("tok2")) (NetOutcome.response sampleOkResponse)
        noFailure).2.1.passengers.filter
          (passengerKeyMatches samplePassenger.email
            samplePassenger.documentNumber)).length = 1) ∧
    (∀ r ∈ (issuePolicy sampleParamsSecond ("user-2") 1
        (issuePolicy sampleParams ("user-1") 0 emptyDb samplePe (Except.ok ("tok"))
          (NetOutcome.response sampleOkResponse) noFailure).2.1
        samplePe (Except.ok ("tok2")) (NetOutcome.response sampleOkResponse)
        noFailure).2.1.passengers.filter
          (passengerKeyMatches samplePassenger.email samplePassenger.documentNumber),
      r.phone = samplePassengerNewPhone.phone) :=
  issuePolicy_passenger_upsert_idempotent sampleParams sampleParamsSecond samplePassenger
    samplePassengerNewPhone ("user-1") ("user-2") 0 1 emptyDb samplePe ("tok") ("tok2")
    (NetOutcome.response sampleOkResponse) (NetOutcome.response sampleOkResponse)
    sampleIssueData sampleIssueData rfl rfl rfl rfl (by decide)
    (fun r hr => absurd hr (List.not_mem_nil r))
    (fun r hr => absurd hr (List.not_mem_nil r))
    rfl rfl rfl rfl
